import Mathlib

/-!
# Verification of the savonia-iot telemetry pipeline and alert evaluator

Shallow embedding of the core of the `savonia-iot` repository:

* the JavaScript numeric string conversion used by the alert evaluator
  (`isFiniteNumber`, `toNumber` in the alert queue handler),
* the alert evaluator state machine (`parseMessage`, `getEnabledTrigger`,
  `getOpenAlert`, `createAlert`, `touchAlertOutOfBounds`, `maybeCloseAlert`,
  `alert` handler) together with the relevant database constraints from the
  SQL DDL (`alerts_one_open_per_device_sensor` partial unique index),
* the time-series writer (`mapTelemetryToDb`, `insertTelemetryRow` with
  `ON CONFLICT DO NOTHING`, `runTimescaleWriter`),
* the archive blob writer (`parseQueueMessages`, partitioning, append blobs),
* the ingest fan-out dispatcher (`enqueueToAllQueues`, `ingest`),
* the telemetry batch validator (`parseTelemetryBatch`).

Modelling conventions:

* Finite JavaScript numbers are modelled as exact decimal rationals
  (`DecNum`, a mantissa/decimal-exponent pair): every numeric literal the
  pipeline parses denotes such a number, and the claims under verification do
  not depend on IEEE-754 rounding or overflow.  The non-finite values `NaN`
  and `±Infinity` are modelled explicitly by `JsNum` where the code
  distinguishes them (`Number.isFinite`, `Number.isNaN`).
* Measurement timestamps are modelled as integer milliseconds since the epoch
  (the value of JavaScript's `Date.prototype.getTime`); ISO strings that fail
  to parse (`NaN` dates) are modelled by `Option`.
* String manipulation is performed on character lists (`String.data`),
  mirroring the JavaScript string functions used by the source.
* Asynchronous I/O failure of the database, the queue service, and the blob
  service is modelled by boolean oracles supplied as explicit arguments;
  a raised (and not caught) exception is modelled by `Except.error`.
-/

/-! ## Decimal rationals

The value `⟨m, e⟩ : DecNum` denotes the rational `m / 10 ^ e`.  Two
representations may denote the same rational; the pipeline only ever copies
numbers and compares them with `<` / `>`, so ordering is what matters and is
given by cross multiplication. -/

/-- An exact decimal rational `m / 10 ^ e`, the model of a finite JavaScript
number as produced by decoding JSON or converting a numeric string. -/
structure DecNum where
  m : Int
  e : Nat
deriving DecidableEq, Repr

namespace DecNum

/-- The rational denoted by a `DecNum`. -/
def toRat (a : DecNum) : Rat := (a.m : Rat) / (10 : Rat) ^ a.e

/-- The JavaScript `<` comparison on finite numbers, by cross multiplication. -/
def blt (a b : DecNum) : Bool := a.m * (10 : Int) ^ b.e < b.m * (10 : Int) ^ a.e

/-- A `DecNum` denoting the integer `n`. -/
def ofInt (n : Int) : DecNum := ⟨n, 0⟩

/-- Negation. -/
def neg (a : DecNum) : DecNum := ⟨-a.m, a.e⟩

theorem blt_iff_toRat_lt (a b : DecNum) : a.blt b = true ↔ a.toRat < b.toRat := by
  unfold blt toRat
  rw [div_lt_div_iff₀ (by positivity) (by positivity)]
  rw [decide_eq_true_eq]
  constructor
  · intro h
    calc (a.m : Rat) * (10 : Rat) ^ b.e
        = ((a.m * (10 : Int) ^ b.e : Int) : Rat) := by push_cast; ring
      _ < ((b.m * (10 : Int) ^ a.e : Int) : Rat) := by exact_mod_cast h
      _ = (b.m : Rat) * (10 : Rat) ^ a.e := by push_cast; ring
  · intro h
    have : ((a.m * (10 : Int) ^ b.e : Int) : Rat) < ((b.m * (10 : Int) ^ a.e : Int) : Rat) := by
      push_cast
      push_cast at h
      linarith
    exact_mod_cast this

end DecNum

/-! ## JavaScript numeric string conversion

Model of the ECMAScript `Number(string)` conversion (`StringNumericLiteral`):
surrounding whitespace is removed, the empty string converts to `0`, signed
decimal literals (with optional fraction and exponent), signed `Infinity`,
and unsigned hexadecimal / octal / binary integer literals are recognised;
everything else converts to `NaN`. -/

/-- A JavaScript number: either a finite value or one of the non-finite
values `+Infinity`, `-Infinity`, `NaN`. -/
inductive JsNum where
  | finite (d : DecNum)
  | posInf
  | negInf
  | nan
deriving DecidableEq, Repr

/-- Numeric value of a decimal digit character. -/
def digitVal (c : Char) : Nat := c.toNat - 48

/-- Value of a list of decimal digits, most significant first. -/
def decDigitsToNat (ds : List Char) : Nat :=
  ds.foldl (fun n c => n * 10 + digitVal c) 0

/-- Value of a hexadecimal digit character, `none` for a non-digit. -/
def hexDigitVal (c : Char) : Option Nat :=
  let n := c.toNat
  if 48 ≤ n ∧ n ≤ 57 then some (n - 48)
  else if 97 ≤ n ∧ n ≤ 102 then some (n - 87)
  else if 65 ≤ n ∧ n ≤ 70 then some (n - 55)
  else none

/-- Value of an octal digit character, `none` for a non-digit. -/
def octDigitVal (c : Char) : Option Nat :=
  let n := c.toNat
  if 48 ≤ n ∧ n ≤ 55 then some (n - 48) else none

/-- Value of a binary digit character, `none` for a non-digit. -/
def binDigitVal (c : Char) : Option Nat :=
  let n := c.toNat
  if n = 48 ∨ n = 49 then some (n - 48) else none

/-- Parse a non-empty run of digits in the given radix; `none` if the list is
empty or contains a non-digit. -/
def parseRadixDigits (radix : Nat) (dv : Char → Option Nat) (ds : List Char) :
    Option Nat :=
  if ds.isEmpty then none
  else
    ds.foldl
      (fun acc c =>
        match acc, dv c with
        | some n, some d => some (n * radix + d)
        | _, _ => none)
      (some 0)

/-- Parse an unsigned ECMAScript decimal literal (`DecimalDigits`, optional
`.` fraction, optional `e`/`E` exponent) covering the whole character list. -/
def parseUnsignedDec (ds : List Char) : Option DecNum :=
  let intDigits := ds.takeWhile Char.isDigit
  let rest1 := ds.dropWhile Char.isDigit
  let hasDot : Bool := match rest1 with | '.' :: _ => true | _ => false
  let afterDot := match rest1 with | '.' :: tl => tl | _ => []
  let fracDigits := if hasDot then afterDot.takeWhile Char.isDigit else []
  let rest2 := if hasDot then afterDot.dropWhile Char.isDigit else rest1
  if intDigits.isEmpty ∧ fracDigits.isEmpty then none
  else
    let fl := fracDigits.length
    let mant : DecNum :=
      ⟨(decDigitsToNat intDigits : Int) * (10 : Int) ^ fl + (decDigitsToNat fracDigits : Int), fl⟩
    match rest2 with
    | [] => some mant
    | ec :: tl =>
      if ec = 'e' ∨ ec = 'E' then
        let esign : Int := match tl with | '-' :: _ => -1 | _ => 1
        let eds := match tl with | '+' :: t => t | '-' :: t => t | t => t
        if eds.isEmpty ∨ ¬(eds.all Char.isDigit) then none
        else
          let ex := decDigitsToNat eds
          some (if esign = 1 then ⟨mant.m * (10 : Int) ^ ex, mant.e⟩ else ⟨mant.m, mant.e + ex⟩)
      else none

/-- Parse an optionally signed decimal literal or `Infinity`. -/
def parseSignedDec (ds : List Char) : JsNum :=
  let sign : Int := match ds with | '-' :: _ => -1 | _ => 1
  let body := match ds with | '+' :: t => t | '-' :: t => t | t => t
  if body = "Infinity".data then (if sign = 1 then .posInf else .negInf)
  else
    match parseUnsignedDec body with
    | some d => .finite (if sign = 1 then d else d.neg)
    | none => .nan

/-- Trim surrounding whitespace from a character list (the model of
`String.prototype.trim`). -/
def trimChars (ds : List Char) : List Char :=
  ((ds.dropWhile Char.isWhitespace).reverse.dropWhile Char.isWhitespace).reverse

/-- The ECMAScript `Number(string)` conversion on the characters of the
string (see section comment). -/
def jsStringToNumberChars (ds : List Char) : JsNum :=
  let t := trimChars ds
  if t.isEmpty then .finite (.ofInt 0)
  else
    match t with
    | '0' :: c :: rest =>
      if c = 'x' ∨ c = 'X' then
        match parseRadixDigits 16 hexDigitVal rest with
        | some n => .finite (.ofInt n)
        | none => .nan
      else if c = 'o' ∨ c = 'O' then
        match parseRadixDigits 8 octDigitVal rest with
        | some n => .finite (.ofInt n)
        | none => .nan
      else if c = 'b' ∨ c = 'B' then
        match parseRadixDigits 2 binDigitVal rest with
        | some n => .finite (.ofInt n)
        | none => .nan
      else parseSignedDec t
    | _ => parseSignedDec t

/-- The ECMAScript `Number(string)` conversion. -/
def jsStringToNumber (s : String) : JsNum := jsStringToNumberChars s.data

/-- `s.replace(pat, rep)` with a string pattern: JavaScript's
`String.prototype.replace` replaces only the first occurrence. -/
def replaceFirstChars (pat rep : List Char) : List Char → List Char
  | [] => []
  | c :: rest =>
    if pat.isPrefixOf (c :: rest) then rep ++ (c :: rest).drop pat.length
    else c :: replaceFirstChars pat rep rest

/-- A JavaScript runtime value as far as the alert evaluator's `toNumber`
inspects it: a finite number, a non-finite number (`NaN`/`±Infinity`),
a string, a boolean, `null`/`undefined`, or anything else (object). -/
inductive JsVal where
  | num (d : DecNum)
  | nonFinite
  | str (s : String)
  | bool (b : Bool)
  | nullV
  | undef
  | objV
deriving DecidableEq, Repr

/-- `toNumber` from the alert queue handler: accepts a finite number as-is;
for a string, trims it, replaces the first `','` with `'.'`, rejects the
empty result, and converts with `Number(...)`, keeping only finite results;
everything else is rejected. -/
def toNumber : JsVal → Option DecNum
  | .num d => some d
  | .str v =>
    let s := replaceFirstChars [','] ['.'] (trimChars v.data)
    if s.isEmpty then none
    else
      match jsStringToNumberChars s with
      | .finite n => some n
      | _ => none
  | _ => none

example : toNumber (.str "72,5") = some ⟨725, 1⟩ := by decide
example : toNumber (.str "  -1.5e2 ") = some ⟨-1500, 1⟩ := by decide
example : toNumber (.str "0x10") = some ⟨16, 0⟩ := by decide
example : toNumber (.str "abc") = none := by decide
example : toNumber (.str "") = none := by decide
example : toNumber (.str "Infinity") = none := by decide
example : toNumber (.bool true) = none := by decide
example : toNumber (.num ⟨3, 0⟩) = some ⟨3, 0⟩ := by decide
example : toNumber (.str "1.5.2") = none := by decide
example : toNumber (.str ",") = none := by decide
example : (DecNum.blt ⟨725, 1⟩ ⟨73, 0⟩) = true := by decide

/-! ## Alert evaluator: message parsing

Embedding of `parseMessage` from the alert queue handler.  A raw queue
payload field of type `string | undefined` is modelled by `Option String`;
the `ts` field is modelled by `Option (Option Int)`: `none` models an absent
(or empty, hence falsy) field, `some none` a present string that
`new Date(...)` fails to parse, and `some (some t)` a valid ISO timestamp
whose epoch-millisecond value is `t`. -/

/-- ASCII lower-casing of a character list (`String.prototype.toLowerCase`
restricted to the ASCII strings compared by the evaluator). -/
def jsToLowerChars (ds : List Char) : List Char := ds.map Char.toLower

/-- JavaScript falsiness of a `string | undefined` value: absent or empty. -/
def strFalsy : Option String → Bool
  | none => true
  | some s => decide (s = "")

/-- The raw telemetry message object as the alert evaluator's `TelemetryMessage`
type declares it (with tolerated alternate snake_case field names). -/
structure RawMsg where
  deviceId : Option String := none
  device_id : Option String := none
  sensorId : Option String := none
  sensor_id : Option String := none
  ts : Option (Option Int) := none
  seq : Option DecNum := none
  valueType : Option String := none
  value_type : Option String := none
  value : JsVal := .undef
deriving DecidableEq, Repr

/-- The result of a successful `parseMessage`. -/
structure ParsedMsg where
  deviceId : String
  sensorId : String
  ts : Int
  seq : DecNum
  value : DecNum
deriving DecidableEq, Repr

/-- A decoded queue payload: either not an object (including `null`), or an
object read through the `TelemetryMessage` shape. -/
inductive AlertRawInput where
  | nonObject
  | obj (m : RawMsg)
deriving DecidableEq, Repr

/-- `parseMessage` from the alert queue handler: resolves camelCase/snake_case
field names, requires truthy device/sensor/ts fields, requires the lower-cased
`valueType` to be empty or `"number"`, converts the value with `toNumber`,
and validates the timestamp. -/
def parseMessage : AlertRawInput → Option ParsedMsg
  | .nonObject => none
  | .obj msg =>
    let deviceId := msg.deviceId <|> msg.device_id
    let sensorId := msg.sensorId <|> msg.sensor_id
    let tsIso := msg.ts
    let seq := msg.seq.getD (.ofInt 0)
    let valueType := jsToLowerChars (((msg.valueType <|> msg.value_type).getD "").data)
    if strFalsy deviceId || strFalsy sensorId || tsIso.isNone then none
    else if ¬valueType.isEmpty ∧ valueType ≠ "number".data then none
    else
      match toNumber msg.value with
      | none => none
      | some value =>
        match tsIso with
        | some (some t) => some ⟨deviceId.getD "", sensorId.getD "", t, seq, value⟩
        | _ => none

/-! ## Alert evaluator: database model

Row types follow the `alert_triggers` and `alerts` tables of the SQL DDL
(`05_init_alerts.sql`).  The text of the individual alert SQL statements
(`Sql.insertAlert` etc.) is not part of the sources; their semantics is
modelled from the spec ("create an Alert row", "update
`context.lastOutOfBoundsTs`", "close the alert") together with the DDL
constraints that are in the sources — in particular the partial unique index
`alerts_one_open_per_device_sensor ON alerts (device_id, sensor_id) WHERE
end_ts IS NULL`, which makes an insert of a second open alert for the same
(device, sensor) pair fail with a unique violation instead of creating the
row. -/

/-- A row of `alert_triggers`. -/
structure TriggerRow where
  id : Nat
  deviceId : String
  sensorId : String
  minValue : Option DecNum
  maxValue : Option DecNum
  enabled : Bool
deriving DecidableEq, Repr

/-- The `context` JSONB payload written by the evaluator. -/
structure AlertContext where
  value : DecNum
  min : Option DecNum
  max : Option DecNum
  lastOutOfBoundsTs : Option Int
deriving DecidableEq, Repr

/-- A row of `alerts`. -/
structure AlertRow where
  id : Nat
  triggerId : Nat
  deviceId : String
  sensorId : String
  startTs : Int
  endTs : Option Int
  reason : String
  context : AlertContext
deriving DecidableEq, Repr

/-- The relational state visible to the alert evaluator. -/
structure EvalDb where
  triggers : List TriggerRow
  alerts : List AlertRow
  nextAlertId : Nat
deriving DecidableEq, Repr

/-- A database error surfaced to the handler as a thrown exception. -/
inductive DbError where
  | uniqueViolation
deriving DecidableEq, Repr

/-- Rendering of a number into a reason string (stand-in for JavaScript's
number-to-string conversion; no claim depends on the rendered digits). -/
def decNumToString (d : DecNum) : String :=
  toString d.m ++ (if d.e = 0 then "" else "e-" ++ toString d.e)

/-- `buildReason` from the alert queue handler. -/
def buildReason (sensorId : String) (value : DecNum) (mn mx : Option DecNum) : String :=
  match mn, mx with
  | some mi, some ma =>
    if value.blt mi then
      sensorId ++ ": value " ++ decNumToString value ++ " is below min " ++ decNumToString mi
    else if ma.blt value then
      sensorId ++ ": value " ++ decNumToString value ++ " is above max " ++ decNumToString ma
    else
      sensorId ++ ": value " ++ decNumToString value ++ " is outside range [" ++
        decNumToString mi ++ ", " ++ decNumToString ma ++ "]"
  | some mi, none =>
    sensorId ++ ": value " ++ decNumToString value ++ " is below min " ++ decNumToString mi
  | none, some ma =>
    sensorId ++ ": value " ++ decNumToString value ++ " is above max " ++ decNumToString ma
  | none, none =>
    sensorId ++ ": value " ++ decNumToString value ++ " is out of bounds"

/-- `getLastOobTs`: the `lastOutOfBoundsTs` of the alert's context, falling
back to `startTs` when the field is absent or unparsable. -/
def getLastOobTs (a : AlertRow) : Int :=
  a.context.lastOutOfBoundsTs.getD a.startTs

/-- `addMinutes` on epoch milliseconds. -/
def addMinutes (t : Int) (minutes : Int) : Int := t + minutes * 60000

/-- Whether an alert row is open for the given (device, sensor) pair:
the predicate of the partial unique index `alerts_one_open_per_device_sensor`. -/
def isOpenFor (d s : String) (a : AlertRow) : Bool :=
  a.endTs.isNone && decide (a.deviceId = d) && decide (a.sensorId = s)

/-- Modelled from the spec: the text of `Sql.selectEnabledAlertTriggerByDeviceSensor`
is not in the sources; per the spec the evaluator "loads the enabled trigger
(min/max bounds) for the sensor" — the trigger row for the pair (unique by
the DDL's `alert_triggers_device_sensor_unique` index), kept only if
enabled (the handler re-checks `row.enabled`). -/
def getEnabledTrigger (db : EvalDb) (d s : String) : Option TriggerRow :=
  match db.triggers.find? (fun t => decide (t.deviceId = d) && decide (t.sensorId = s)) with
  | none => none
  | some t => if t.enabled then some t else none

/-- Modelled from the spec: the text of `Sql.selectOpenAlertByTriggerId` is
not in the sources; an "open" alert is one with `endTs` null (DDL comment
and spec), looked up by trigger id. -/
def getOpenAlert (db : EvalDb) (trigId : Nat) : Option AlertRow :=
  db.alerts.find? (fun a => decide (a.triggerId = trigId) && a.endTs.isNone)

/-- Modelled from the spec: the text of `Sql.insertAlert` is not in the
sources; per the spec `createAlert` "creates an Alert row with `startTs = ts`,
`context.lastOutOfBoundsTs = ts`".  The insert fails with a unique violation
when an open alert for the same (device, sensor) pair already exists — the
partial unique index `alerts_one_open_per_device_sensor` of the DDL, which is
in the sources. -/
def insertAlert (db : EvalDb) (trigId : Nat) (d s : String) (ts : Int)
    (v : DecNum) (mn mx : Option DecNum) : Except DbError EvalDb :=
  if db.alerts.any (isOpenFor d s) then
    .error .uniqueViolation
  else
    .ok { db with
      alerts := db.alerts ++ [{
        id := db.nextAlertId
        triggerId := trigId
        deviceId := d
        sensorId := s
        startTs := ts
        endTs := none
        reason := buildReason s v mn mx
        context := { value := v, min := mn, max := mx, lastOutOfBoundsTs := some ts } }]
      nextAlertId := db.nextAlertId + 1 }

/-- Modelled from the spec: the text of `Sql.updateAlertContext` is not in
the sources; per the spec the evaluator "updates `context.lastOutOfBoundsTs`
= ts (refresh, do not create a second alert)" — the context of the row with
the given id is replaced. -/
def touchAlertRows (alerts : List AlertRow) (alertId : Nat) (ts : Int)
    (v : DecNum) (mn mx : Option DecNum) : List AlertRow :=
  alerts.map fun a =>
    if a.id = alertId then
      { a with context := { value := v, min := mn, max := mx, lastOutOfBoundsTs := some ts } }
    else a

/-- Modelled from the spec: the text of `Sql.closeAlert` is not in the
sources; per the spec closing an alert sets `endTs` to the measurement time
of the legal sample. -/
def closeAlertRows (alerts : List AlertRow) (alertId : Nat) (ts : Int) : List AlertRow :=
  alerts.map fun a => if a.id = alertId then { a with endTs := some ts } else a

/-- `maybeCloseAlert`: closes the alert only when the measurement time is at
least ten minutes past the last out-of-bounds time.  (The handler's re-check
that the measurement timestamp is a valid date always passes here, because
`parseMessage` already validated it.) -/
def maybeCloseAlertDb (db : EvalDb) (a : AlertRow) (ts : Int) : EvalDb :=
  if addMinutes (getLastOobTs a) 10 ≤ ts then
    { db with alerts := closeAlertRows db.alerts a.id ts }
  else db

/-- `outOfBounds = (min set AND value < min) OR (max set AND value > max)`. -/
def isOutOfBounds (mn mx : Option DecNum) (v : DecNum) : Bool :=
  (match mn with | some mi => v.blt mi | none => false) ||
  (match mx with | some ma => ma.blt v | none => false)

/-- The alert evaluator on a parsed message: the state machine of the `alert`
queue handler after `parseMessage` succeeds. -/
def alertHandleParsed (db : EvalDb) (p : ParsedMsg) : Except DbError EvalDb :=
  match getEnabledTrigger db p.deviceId p.sensorId with
  | none => .ok db
  | some trig =>
    if isOutOfBounds trig.minValue trig.maxValue p.value then
      match getOpenAlert db trig.id with
      | none =>
        insertAlert db trig.id p.deviceId p.sensorId p.ts p.value trig.minValue trig.maxValue
      | some a =>
        .ok { db with
          alerts := touchAlertRows db.alerts a.id p.ts p.value trig.minValue trig.maxValue }
    else
      match getOpenAlert db trig.id with
      | some a => .ok (maybeCloseAlertDb db a p.ts)
      | none => .ok db

/-- A message on the alert queue: a string payload together with its
`JSON.parse` result (`none` when the JSON is invalid, which the handler only
warns about), or an already-decoded payload. -/
inductive AlertQueueItem where
  | jsonStr (parsed : Option AlertRawInput)
  | direct (v : AlertRawInput)
deriving DecidableEq, Repr

/-- The handler on a decoded payload: skips malformed or non-numeric
messages, otherwise runs the state machine. -/
def alertHandleRaw (db : EvalDb) (r : AlertRawInput) : Except DbError EvalDb :=
  match parseMessage r with
  | none => .ok db
  | some p => alertHandleParsed db p

/-- One invocation of the `alert` queue handler.  `Except.error` models an
exception escaping the invocation (so the queue service redelivers). -/
def alertStep (db : EvalDb) (item : AlertQueueItem) : Except DbError EvalDb :=
  match item with
  | .jsonStr none => .ok db
  | .jsonStr (some r) => alertHandleRaw db r
  | .direct r => alertHandleRaw db r

/-- The database state after an invocation: a failed invocation leaves the
state unchanged (the failing statement was the only pending write). -/
def alertApply (db : EvalDb) (item : AlertQueueItem) : EvalDb :=
  match alertStep db item with
  | .ok db' => db'
  | .error _ => db

/-- Processing of a whole sequence of queue deliveries (including redelivered
or out-of-order messages). -/
def alertRun (db : EvalDb) (items : List AlertQueueItem) : EvalDb :=
  items.foldl alertApply db

/-- The number of open alert rows for a (device, sensor) pair. -/
def openCount (alerts : List AlertRow) (d s : String) : Nat :=
  alerts.countP (isOpenFor d s)

/-- The open-alert uniqueness invariant: at most one open alert row per
(device, sensor) pair. -/
def OpenAlertUnique (alerts : List AlertRow) : Prop :=
  ∀ d s, openCount alerts d s ≤ 1

/-! ## Open-alert uniqueness: preservation lemmas -/

theorem openCount_touchAlertRows (alerts : List AlertRow) (alertId : Nat) (ts : Int)
    (v : DecNum) (mn mx : Option DecNum) (d s : String) :
    openCount (touchAlertRows alerts alertId ts v mn mx) d s = openCount alerts d s := by
  unfold openCount touchAlertRows
  rw [List.countP_map]
  apply List.countP_congr
  intro a _
  by_cases h : a.id = alertId <;> simp [Function.comp, isOpenFor, h]

theorem openCount_closeAlertRows_le (alerts : List AlertRow) (alertId : Nat) (ts : Int)
    (d s : String) :
    openCount (closeAlertRows alerts alertId ts) d s ≤ openCount alerts d s := by
  unfold openCount closeAlertRows
  rw [List.countP_map]
  apply List.countP_mono_left
  intro a _ h
  by_cases hid : a.id = alertId
  · simp [Function.comp, isOpenFor, hid] at h
  · simpa [Function.comp, isOpenFor, hid] using h

theorem insertAlert_preserves (db : EvalDb) (trigId : Nat) (d s : String) (ts : Int)
    (v : DecNum) (mn mx : Option DecNum) (db' : EvalDb)
    (hinv : OpenAlertUnique db.alerts)
    (h : insertAlert db trigId d s ts v mn mx = .ok db') :
    OpenAlertUnique db'.alerts := by
  unfold insertAlert at h
  split at h
  · exact absurd h (by simp)
  · next hany =>
    cases h
    intro d' s'
    unfold openCount
    rw [List.countP_append]
    by_cases hds : d = d' ∧ s = s'
    · have h0 : db.alerts.countP (isOpenFor d' s') = 0 := by
        apply List.countP_eq_zero.mpr
        intro a ha
        have hfalse : db.alerts.any (isOpenFor d s) = false := by
          cases hb : db.alerts.any (isOpenFor d s)
          · rfl
          · exact absurd hb hany
        have := List.any_eq_false.mp hfalse a ha
        rw [hds.1, hds.2] at this
        exact this
      rw [h0]
      simpa using List.countP_le_length (p := isOpenFor d' s') (l := [_])
    · have h1 : List.countP (isOpenFor d' s') [{
          id := db.nextAlertId, triggerId := trigId, deviceId := d, sensorId := s,
          startTs := ts, endTs := none, reason := buildReason s v mn mx,
          context := { value := v, min := mn, max := mx,
                       lastOutOfBoundsTs := some ts } }] = 0 := by
        rw [not_and_or] at hds
        rcases hds with hd | hs
        · simp [List.countP_cons, isOpenFor, hd]
        · simp [List.countP_cons, isOpenFor, hs]
      rw [h1]
      simpa using hinv d' s'

theorem maybeCloseAlertDb_preserves (db : EvalDb) (a : AlertRow) (ts : Int)
    (hinv : OpenAlertUnique db.alerts) :
    OpenAlertUnique (maybeCloseAlertDb db a ts).alerts := by
  unfold maybeCloseAlertDb
  split
  · intro d s
    exact le_trans (openCount_closeAlertRows_le db.alerts a.id ts d s) (hinv d s)
  · exact hinv

theorem alertHandleParsed_preserves (db : EvalDb) (p : ParsedMsg) (db' : EvalDb)
    (hinv : OpenAlertUnique db.alerts)
    (h : alertHandleParsed db p = .ok db') : OpenAlertUnique db'.alerts := by
  unfold alertHandleParsed at h
  split at h
  · cases h; exact hinv
  · next trig _ =>
    split at h
    · split at h
      · exact insertAlert_preserves db trig.id p.deviceId p.sensorId p.ts p.value
          trig.minValue trig.maxValue db' hinv h
      · next a _ =>
        cases h
        intro d s
        rw [show ({ db with
            alerts := touchAlertRows db.alerts a.id p.ts p.value trig.minValue
              trig.maxValue } : EvalDb).alerts = touchAlertRows db.alerts a.id p.ts p.value
            trig.minValue trig.maxValue from rfl]
        rw [openCount_touchAlertRows]
        exact hinv d s
    · split at h
      · next a _ =>
        cases h
        exact maybeCloseAlertDb_preserves db a p.ts hinv
      · cases h; exact hinv

theorem alertApply_preserves (db : EvalDb) (item : AlertQueueItem)
    (hinv : OpenAlertUnique db.alerts) :
    OpenAlertUnique (alertApply db item).alerts := by
  unfold alertApply
  cases hstep : alertStep db item with
  | error e => exact hinv
  | ok db' =>
    unfold alertStep at hstep
    split at hstep
    · cases hstep; exact hinv
    · next r =>
      unfold alertHandleRaw at hstep
      split at hstep
      · cases hstep; exact hinv
      · next p _ => exact alertHandleParsed_preserves db p db' hinv hstep
    · next r =>
      unfold alertHandleRaw at hstep
      split at hstep
      · cases hstep; exact hinv
      · next p _ => exact alertHandleParsed_preserves db p db' hinv hstep

/-- **C1**.  For every (deviceId, sensorId) pair and every sequence of
telemetry messages processed by the Alert Evaluator (including redelivered or
out-of-order deliveries, and invocations that fail on the open-alert unique
index), at any time at most one Alert row with `endTs` null exists for the
pair: processing preserves the open-alert uniqueness invariant, so it holds
after every prefix of the delivery sequence. -/
theorem alertRun_open_alert_unique (db : EvalDb) (items : List AlertQueueItem)
    (hinv : OpenAlertUnique db.alerts) :
    OpenAlertUnique (alertRun db items).alerts := by
  induction items generalizing db with
  | nil => exact hinv
  | cons item rest ih =>
    unfold alertRun
    rw [List.foldl_cons]
    exact ih (alertApply db item) (alertApply_preserves db item hinv)

/-- **C2**.  For an open alert `a` whose last out-of-bounds measurement time
is `t1`, the evaluator, on a within-bounds measurement with measurement time
`ts`, closes the alert (rewriting its row via `closeAlertRows`, which sets
`endTs := some ts`) if and only if `ts ≥ t1 + 10` minutes; otherwise the
database is unchanged.  In particular a legal measurement at `t1 + 9m59s`
leaves the alert open and one at exactly `t1 + 10m00s` closes it (see the
witness). -/
theorem alertHandleParsed_close_iff (db : EvalDb) (p : ParsedMsg) (trig : TriggerRow)
    (a : AlertRow) (t1 : Int)
    (htrig : getEnabledTrigger db p.deviceId p.sensorId = some trig)
    (hopen : getOpenAlert db trig.id = some a)
    (hlast : getLastOobTs a = t1)
    (hin : isOutOfBounds trig.minValue trig.maxValue p.value = false) :
    (addMinutes t1 10 ≤ p.ts →
      alertHandleParsed db p =
        .ok { db with alerts := closeAlertRows db.alerts a.id p.ts }) ∧
    (p.ts < addMinutes t1 10 → alertHandleParsed db p = .ok db) := by
  have hmain : alertHandleParsed db p = .ok (maybeCloseAlertDb db a p.ts) := by
    unfold alertHandleParsed
    simp only [htrig, hin, Bool.false_eq_true, if_false, hopen]
  constructor
  · intro hts
    rw [hmain]
    unfold maybeCloseAlertDb
    rw [hlast, if_pos hts]
  · intro hts
    rw [hmain]
    unfold maybeCloseAlertDb
    rw [hlast, if_neg (by omega)]

/-- Witness for C2: a trigger `max = 70` with an alert opened at `t0 = 0`
last out of bounds at `t1 = 300000` (t0 + 5m); a legal measurement at
`t1 + 9m59s` leaves the database unchanged, and one at `t1 + 10m00s`
closes the alert with `endTs` equal to the measurement time. -/
theorem alertHandleParsed_close_iff_witness :
    (alertHandleParsed
        { triggers := [{ id := 1, deviceId := "pi-01", sensorId := "cpu-temp",
                         minValue := none, maxValue := some ⟨70, 0⟩, enabled := true }],
          alerts := [{ id := 5, triggerId := 1, deviceId := "pi-01", sensorId := "cpu-temp",
                       startTs := 0, endTs := none, reason := "r",
                       context := { value := ⟨75, 0⟩, min := none, max := some ⟨70, 0⟩,
                                    lastOutOfBoundsTs := some 300000 } }],
          nextAlertId := 6 }
        { deviceId := "pi-01", sensorId := "cpu-temp", ts := 300000 + 599000,
          seq := ⟨0, 0⟩, value := ⟨60, 0⟩ } =
      .ok
        { triggers := [{ id := 1, deviceId := "pi-01", sensorId := "cpu-temp",
                         minValue := none, maxValue := some ⟨70, 0⟩, enabled := true }],
          alerts := [{ id := 5, triggerId := 1, deviceId := "pi-01", sensorId := "cpu-temp",
                       startTs := 0, endTs := none, reason := "r",
                       context := { value := ⟨75, 0⟩, min := none, max := some ⟨70, 0⟩,
                                    lastOutOfBoundsTs := some 300000 } }],
          nextAlertId := 6 }) ∧
    (alertHandleParsed
        { triggers := [{ id := 1, deviceId := "pi-01", sensorId := "cpu-temp",
                         minValue := none, maxValue := some ⟨70, 0⟩, enabled := true }],
          alerts := [{ id := 5, triggerId := 1, deviceId := "pi-01", sensorId := "cpu-temp",
                       startTs := 0, endTs := none, reason := "r",
                       context := { value := ⟨75, 0⟩, min := none, max := some ⟨70, 0⟩,
                                    lastOutOfBoundsTs := some 300000 } }],
          nextAlertId := 6 }
        { deviceId := "pi-01", sensorId := "cpu-temp", ts := 300000 + 600000,
          seq := ⟨0, 0⟩, value := ⟨60, 0⟩ } =
      .ok
        { triggers := [{ id := 1, deviceId := "pi-01", sensorId := "cpu-temp",
                         minValue := none, maxValue := some ⟨70, 0⟩, enabled := true }],
          alerts := [{ id := 5, triggerId := 1, deviceId := "pi-01", sensorId := "cpu-temp",
                       startTs := 0, endTs := some 900000, reason := "r",
                       context := { value := ⟨75, 0⟩, min := none, max := some ⟨70, 0⟩,
                                    lastOutOfBoundsTs := some 300000 } }],
          nextAlertId := 6 }) := by
  constructor
  · have h := (alertHandleParsed_close_iff
      { triggers := [{ id := 1, deviceId := "pi-01", sensorId := "cpu-temp",
                       minValue := none, maxValue := some ⟨70, 0⟩, enabled := true }],
        alerts := [{ id := 5, triggerId := 1, deviceId := "pi-01", sensorId := "cpu-temp",
                     startTs := 0, endTs := none, reason := "r",
                     context := { value := ⟨75, 0⟩, min := none, max := some ⟨70, 0⟩,
                                  lastOutOfBoundsTs := some 300000 } }],
        nextAlertId := 6 }
      { deviceId := "pi-01", sensorId := "cpu-temp", ts := 300000 + 599000,
        seq := ⟨0, 0⟩, value := ⟨60, 0⟩ }
      { id := 1, deviceId := "pi-01", sensorId := "cpu-temp",
        minValue := none, maxValue := some ⟨70, 0⟩, enabled := true }
      { id := 5, triggerId := 1, deviceId := "pi-01", sensorId := "cpu-temp",
        startTs := 0, endTs := none, reason := "r",
        context := { value := ⟨75, 0⟩, min := none, max := some ⟨70, 0⟩,
                     lastOutOfBoundsTs := some 300000 } }
      300000 (by decide) (by decide) (by decide) (by decide)).2 (by decide)
    exact h
  · have h := (alertHandleParsed_close_iff
      { triggers := [{ id := 1, deviceId := "pi-01", sensorId := "cpu-temp",
                       minValue := none, maxValue := some ⟨70, 0⟩, enabled := true }],
        alerts := [{ id := 5, triggerId := 1, deviceId := "pi-01", sensorId := "cpu-temp",
                     startTs := 0, endTs := none, reason := "r",
                     context := { value := ⟨75, 0⟩, min := none, max := some ⟨70, 0⟩,
                                  lastOutOfBoundsTs := some 300000 } }],
        nextAlertId := 6 }
      { deviceId := "pi-01", sensorId := "cpu-temp", ts := 300000 + 600000,
        seq := ⟨0, 0⟩, value := ⟨60, 0⟩ }
      { id := 1, deviceId := "pi-01", sensorId := "cpu-temp",
        minValue := none, maxValue := some ⟨70, 0⟩, enabled := true }
      { id := 5, triggerId := 1, deviceId := "pi-01", sensorId := "cpu-temp",
        startTs := 0, endTs := none, reason := "r",
        context := { value := ⟨75, 0⟩, min := none, max := some ⟨70, 0⟩,
                     lastOutOfBoundsTs := some 300000 } }
      300000 (by decide) (by decide) (by decide) (by decide)).1 (by decide)
    rw [h]
    exact congrArg Except.ok (by decide)

/-- **C5**.  When the evaluator processes a numeric measurement with value
`v` and measurement time `ts` for a sensor that has an enabled trigger and no
open alert, and `v` is out of bounds — `(min set AND v < min) OR (max set AND
v > max)`, which is the definition of `isOutOfBounds` — it creates exactly
one new Alert row, with `startTs = ts` and `context.lastOutOfBoundsTs = ts`. -/
theorem alertHandleParsed_creates (db : EvalDb) (p : ParsedMsg) (trig : TriggerRow)
    (htrig : getEnabledTrigger db p.deviceId p.sensorId = some trig)
    (hoob : isOutOfBounds trig.minValue trig.maxValue p.value = true)
    (hopen : getOpenAlert db trig.id = none)
    (hnone : db.alerts.any (isOpenFor p.deviceId p.sensorId) = false) :
    ∃ r : AlertRow,
      alertHandleParsed db p =
        .ok { db with alerts := db.alerts ++ [r], nextAlertId := db.nextAlertId + 1 } ∧
      r.startTs = p.ts ∧
      r.context.lastOutOfBoundsTs = some p.ts ∧
      r.endTs = none ∧
      r.deviceId = p.deviceId ∧ r.sensorId = p.sensorId ∧ r.triggerId = trig.id := by
  refine ⟨{ id := db.nextAlertId, triggerId := trig.id, deviceId := p.deviceId,
            sensorId := p.sensorId, startTs := p.ts, endTs := none,
            reason := buildReason p.sensorId p.value trig.minValue trig.maxValue,
            context := { value := p.value, min := trig.minValue, max := trig.maxValue,
                         lastOutOfBoundsTs := some p.ts } },
          ?_, rfl, rfl, rfl, rfl, rfl, rfl⟩
  unfold alertHandleParsed
  simp only [htrig, hoob, if_true, hopen]
  unfold insertAlert
  rw [hnone]
  rfl

/-- Witness for C5: value 72 against a `max = 70` trigger with no open alert
creates the alert row with `startTs` and `lastOutOfBoundsTs` equal to the
measurement time. -/
theorem alertHandleParsed_creates_witness :
    ∃ r : AlertRow,
      alertHandleParsed
          { triggers := [{ id := 1, deviceId := "pi-01", sensorId := "cpu-temp",
                           minValue := none, maxValue := some ⟨70, 0⟩, enabled := true }],
            alerts := [], nextAlertId := 1 }
          { deviceId := "pi-01", sensorId := "cpu-temp", ts := 1700000000000,
            seq := ⟨0, 0⟩, value := ⟨72, 0⟩ } =
        .ok { triggers := [{ id := 1, deviceId := "pi-01", sensorId := "cpu-temp",
                             minValue := none, maxValue := some ⟨70, 0⟩, enabled := true }],
              alerts := [] ++ [r], nextAlertId := 2 } ∧
      r.startTs = 1700000000000 ∧
      r.context.lastOutOfBoundsTs = some 1700000000000 ∧
      r.endTs = none ∧
      r.deviceId = "pi-01" ∧ r.sensorId = "cpu-temp" ∧ r.triggerId = 1 :=
  alertHandleParsed_creates
    { triggers := [{ id := 1, deviceId := "pi-01", sensorId := "cpu-temp",
                     minValue := none, maxValue := some ⟨70, 0⟩, enabled := true }],
      alerts := [], nextAlertId := 1 }
    { deviceId := "pi-01", sensorId := "cpu-temp", ts := 1700000000000,
      seq := ⟨0, 0⟩, value := ⟨72, 0⟩ }
    { id := 1, deviceId := "pi-01", sensorId := "cpu-temp",
      minValue := none, maxValue := some ⟨70, 0⟩, enabled := true }
    (by decide) (by decide) (by decide) (by decide)

/-- Witness for C1: starting from an empty alerts table with one enabled
trigger, a redelivered out-of-order sequence of measurements (two identical
out-of-bounds deliveries among them) maintains the invariant. -/
theorem alertRun_open_alert_unique_witness :
    OpenAlertUnique (alertRun
      { triggers := [{ id := 1, deviceId := "pi-01", sensorId := "cpu-temp",
                       minValue := none, maxValue := some ⟨70, 0⟩, enabled := true }],
        alerts := [], nextAlertId := 1 }
      [.direct (.obj { deviceId := some "pi-01", sensorId := some "cpu-temp",
                       ts := some (some 0), value := .num ⟨72, 0⟩ }),
       .direct (.obj { deviceId := some "pi-01", sensorId := some "cpu-temp",
                       ts := some (some 0), value := .num ⟨72, 0⟩ }),
       .jsonStr (some (.obj { deviceId := some "pi-01", sensorId := some "cpu-temp",
                              ts := some (some 300000), value := .str "75" })),
       .direct (.obj { deviceId := some "pi-01", sensorId := some "cpu-temp",
                       ts := some (some 900000), value := .num ⟨60, 0⟩ })]).alerts :=
  alertRun_open_alert_unique _ _ (by intro d s; simp [openCount])

/-- **C10**.  The alert evaluator also accepts numeric values encoded as
strings: a message whose (case-insensitive) `valueType` is absent or
`"number"` and whose `value` is a string that `toNumber` converts —
i.e. that, after trimming and replacing the first `','` with `'.'`, parses
to a finite number `q` — is parsed as a numeric measurement with value `q`
rather than being ignored as non-numeric. -/
theorem parseMessage_accepts_numeric_string (msg : RawMsg) (d s : String)
    (t : Int) (q : DecNum) (v : String)
    (hd : (msg.deviceId <|> msg.device_id) = some d) (hdne : d ≠ "")
    (hs : (msg.sensorId <|> msg.sensor_id) = some s) (hsne : s ≠ "")
    (ht : msg.ts = some (some t))
    (hvt : jsToLowerChars (((msg.valueType <|> msg.value_type).getD "").data) = [] ∨
           jsToLowerChars (((msg.valueType <|> msg.value_type).getD "").data) = "number".data)
    (hv : msg.value = .str v)
    (hq : toNumber (.str v) = some q) :
    parseMessage (.obj msg) = some ⟨d, s, t, msg.seq.getD (.ofInt 0), q⟩ := by
  unfold parseMessage
  rcases hvt with hvt | hvt <;>
    simp +decide [hd, hs, ht, hv, hq, strFalsy, hdne, hsne, hvt]

/-- Witness for C10: the message with string value `"72,5"` and no
`valueType` field parses to the numeric measurement `72.5`. -/
theorem parseMessage_accepts_numeric_string_witness :
    parseMessage (.obj { deviceId := some "pi-01", sensorId := some "cpu-temp",
                         ts := some (some 1700000000000), value := .str "72,5" }) =
      some ⟨"pi-01", "cpu-temp", 1700000000000, ⟨0, 0⟩, ⟨725, 1⟩⟩ :=
  parseMessage_accepts_numeric_string
    { deviceId := some "pi-01", sensorId := some "cpu-temp",
      ts := some (some 1700000000000), value := .str "72,5" }
    "pi-01" "cpu-temp" 1700000000000 ⟨725, 1⟩ "72,5"
    (by decide) (by decide) (by decide) (by decide) (by decide)
    (Or.inl (by decide)) (by decide) (by decide)

/-! ## Time-series writer

Embedding of `timescale-writer.ts`: the inline Zod `TelemetrySchema`, the
column mapping `mapTelemetryToDb`, the idempotent insert (`ON CONFLICT DO
NOTHING` against the primary key `telemetry_pk (device_id, sensor_id, ts,
seq)` of the DDL), and the batch loop `runTimescaleWriter`.

The `ts` column is modelled as the ISO string sent by the producer; the
database's `timestamptz` normalisation is not modelled (re-sent duplicates
carry the identical string). -/

/-- A JSON-like JavaScript value, as delivered by the queue/event binding. -/
inductive Js where
  | null
  | bool (b : Bool)
  | num (n : JsNum)
  | str (s : String)
  | arr (xs : List Js)
  | obj (fields : List (String × Js))

/-- The `valueType` enumeration of the telemetry schema. -/
inductive ValueType where
  | number
  | boolean
  | enum
  | string
deriving DecidableEq, Repr

/-- A schema-validated telemetry value: `z.union([z.number(), z.boolean(),
z.string()])`.  A number accepted by `z.number()` is never `NaN` but may be
infinite. -/
inductive TelemetryValue where
  | num (n : JsNum)
  | bool (b : Bool)
  | str (s : String)
deriving DecidableEq, Repr

/-- A telemetry message validated by the writer's inline `TelemetrySchema`
(`schemaVersion`, checked to be the literal 1, is not carried along). -/
structure TelemetryMsg where
  deviceId : String
  sensorId : String
  ts : String
  seq : Nat
  type : String
  valueType : ValueType
  value : TelemetryValue
  unit : Option String
  location : Option String
deriving DecidableEq, Repr

/-- First field of a JavaScript object with the given name. -/
def getField (fields : List (String × Js)) (name : String) : Option Js :=
  (fields.find? (fun f => decide (f.1 = name))).map (fun f => f.2)

/-- Numeric (value) equality of two decimal rationals. -/
def DecNum.beqVal (a b : DecNum) : Bool :=
  decide (a.m * (10 : Int) ^ b.e = b.m * (10 : Int) ^ a.e)

/-- Whether a decimal rational denotes an integer (`Number.isInteger`). -/
def DecNum.isInt (a : DecNum) : Bool := decide (a.m % (10 : Int) ^ a.e = 0)

/-- The integer denoted by an integral decimal rational. -/
def DecNum.intVal (a : DecNum) : Int := a.m / (10 : Int) ^ a.e

/-- `z.string()` on a field lookup. -/
def zodString : Option Js → Option String
  | some (.str s) => some s
  | _ => none

/-- `z.string().optional()` on a field lookup: absent is fine, a present
non-string is a validation failure. -/
def zodOptionalString : Option Js → Option (Option String)
  | none => some none
  | some (.str s) => some (some s)
  | some _ => none

/-- `z.enum(["number", "boolean", "string", "enum"])` on a field lookup. -/
def zodValueType : Option Js → Option ValueType
  | some (.str "number") => some .number
  | some (.str "boolean") => some .boolean
  | some (.str "string") => some .string
  | some (.str "enum") => some .enum
  | _ => none

/-- `z.literal(1)` on a field lookup (`z.number()` rejects `NaN`). -/
def zodSchemaVersionOne : Option Js → Bool
  | some (.num (.finite d)) => d.beqVal (.ofInt 1)
  | _ => false

/-- `z.number().int().nonnegative()` on a field lookup. -/
def zodNonnegInt : Option Js → Option Nat
  | some (.num (.finite d)) =>
    if d.isInt && decide (0 ≤ d.m) then some d.intVal.toNat else none
  | _ => none

/-- `z.union([z.number(), z.boolean(), z.string()])` on a field lookup
(`z.number()` rejects `NaN` but accepts infinities). -/
def zodValue : Option Js → Option TelemetryValue
  | some (.num .nan) => none
  | some (.num n) => some (.num n)
  | some (.bool b) => some (.bool b)
  | some (.str s) => some (.str s)
  | _ => none

/-- `TelemetrySchema.safeParse` of the time-series writer (the inline Zod
object schema; unknown extra fields are ignored as Zod strips them). -/
def zodTelemetryParse : Js → Option TelemetryMsg
  | .obj fs =>
    if zodSchemaVersionOne (getField fs "schemaVersion") then
      match zodString (getField fs "deviceId"), zodString (getField fs "sensorId"),
            zodString (getField fs "ts"), zodNonnegInt (getField fs "seq"),
            zodString (getField fs "type"), zodValueType (getField fs "valueType"),
            zodValue (getField fs "value"), zodOptionalString (getField fs "unit"),
            zodOptionalString (getField fs "location") with
      | some deviceId, some sensorId, some ts, some seq, some ty, some vt, some v,
        some unit, some location =>
        some { deviceId := deviceId, sensorId := sensorId, ts := ts, seq := seq,
               type := ty, valueType := vt, value := v, unit := unit, location := location }
      | _, _, _, _, _, _, _, _, _ => none
    else none
  | _ => none

/-- JavaScript `String(n)` on a number (the digits rendered for a finite
number are abstracted by `decNumToString`; no claim inspects them). -/
def jsNumToString : JsNum → String
  | .finite d => decNumToString d
  | .posInf => "Infinity"
  | .negInf => "-Infinity"
  | .nan => "NaN"

/-- JavaScript `String(value)` on a telemetry value. -/
def telemetryValueToString : TelemetryValue → String
  | .num n => jsNumToString n
  | .bool b => if b then "true" else "false"
  | .str s => s

/-- JavaScript `Number(value)` on a telemetry value. -/
def telemetryValueToNumber : TelemetryValue → JsNum
  | .num n => n
  | .bool b => .finite (.ofInt (if b then 1 else 0))
  | .str s => jsStringToNumber s

/-- `typeof value === "boolean" ? value : String(value).toLowerCase() === "true"`. -/
def telemetryValueToBoolean : TelemetryValue → Bool
  | .bool b => b
  | v => decide (jsToLowerChars (telemetryValueToString v).data = "true".data)

/-- The SQL column name of a `valueType`. -/
def valueTypeStr : ValueType → String
  | .number => "number"
  | .boolean => "boolean"
  | .enum => "enum"
  | .string => "string"

/-- A row of the `telemetry` table as built by the writer.  `value_number`
holds a non-`NaN` JavaScript number (`double precision` admits infinities;
the writer nulls out `NaN`). -/
structure DbRow where
  device_id : String
  sensor_id : String
  ts : String
  seq : Int
  type : String
  value_type : String
  value_number : Option JsNum
  value_boolean : Option Bool
  value_text : Option String
  unit : Option String
  location : Option String
deriving DecidableEq, Repr

/-- `mapTelemetryToDb`: maps `valueType`/`value` onto the value columns; a
`number` whose `Number(...)` conversion is `NaN` falls back to storing
`String(value)` in the text column. -/
def mapTelemetryToDb (msg : TelemetryMsg) : DbRow :=
  let cols : Option JsNum × Option Bool × Option String :=
    match msg.valueType with
    | .number =>
      match telemetryValueToNumber msg.value with
      | .nan => (none, none, some (telemetryValueToString msg.value))
      | n => (some n, none, none)
    | .boolean => (none, some (telemetryValueToBoolean msg.value), none)
    | .enum => (none, none, some (telemetryValueToString msg.value))
    | .string => (none, none, some (telemetryValueToString msg.value))
  { device_id := msg.deviceId
    sensor_id := msg.sensorId
    ts := msg.ts
    seq := (msg.seq : Int)
    type := msg.type
    value_type := valueTypeStr msg.valueType
    value_number := cols.1
    value_boolean := cols.2.1
    value_text := cols.2.2
    unit := msg.unit
    location := msg.location }

/-- Whether two rows agree on the primary key `telemetry_pk
(device_id, sensor_id, ts, seq)`. -/
def sameTelemetryKey (a b : DbRow) : Bool :=
  decide (a.device_id = b.device_id) && decide (a.sensor_id = b.sensor_id) &&
    decide (a.ts = b.ts) && decide (a.seq = b.seq)

/-- `insertTelemetryRow` with `ON CONFLICT DO NOTHING`: the row is appended
unless a row with the same primary key already exists, in which case the
statement is a no-op. -/
def insertTelemetryRow (table : List DbRow) (r : DbRow) : List DbRow :=
  if table.any (fun a => sameTelemetryKey a r) then table else table ++ [r]

/-- The primary-key uniqueness invariant of the `telemetry` table. -/
def TelemetryPkUnique (table : List DbRow) : Prop :=
  ∀ r : DbRow, table.countP (fun a => sameTelemetryKey a r) ≤ 1

theorem sameTelemetryKey_refl (r : DbRow) : sameTelemetryKey r r = true := by
  simp [sameTelemetryKey]

/-- **C3**.  For every valid telemetry message (mapped to the row `r`),
performing the Time-Series Writer's insert twice is idempotent: the second
insert is a no-op on conflict, and the resulting table holds exactly one row
for the key `(deviceId, sensorId, ts, seq)` of `r`. -/
theorem insertTelemetryRow_idempotent (table : List DbRow) (r : DbRow)
    (hinv : TelemetryPkUnique table) :
    insertTelemetryRow (insertTelemetryRow table r) r = insertTelemetryRow table r ∧
    (insertTelemetryRow (insertTelemetryRow table r) r).countP
      (fun a => sameTelemetryKey a r) = 1 := by
  cases hany : table.any (fun a => sameTelemetryKey a r) with
  | true =>
    have h1 : insertTelemetryRow table r = table := by
      unfold insertTelemetryRow
      rw [hany]
      rfl
    rw [h1, h1]
    refine ⟨rfl, ?_⟩
    have hpos : 0 < table.countP (fun a => sameTelemetryKey a r) := by
      rw [List.countP_pos_iff]
      obtain ⟨a, ha, hk⟩ := List.any_eq_true.mp hany
      exact ⟨a, ha, hk⟩
    exact Nat.le_antisymm (hinv r) hpos
  | false =>
    have h1 : insertTelemetryRow table r = table ++ [r] := by
      unfold insertTelemetryRow
      rw [hany]
      rfl
    have h2 : (table ++ [r]).any (fun a => sameTelemetryKey a r) = true := by
      rw [List.any_eq_true]
      exact ⟨r, by simp, sameTelemetryKey_refl r⟩
    have h3 : insertTelemetryRow (table ++ [r]) r = table ++ [r] := by
      unfold insertTelemetryRow
      rw [h2]
      rfl
    rw [h1, h3]
    refine ⟨rfl, ?_⟩
    rw [List.countP_append]
    have h0 : table.countP (fun a => sameTelemetryKey a r) = 0 :=
      List.countP_eq_zero.mpr (List.any_eq_false.mp hany)
    rw [h0]
    simp [List.countP_cons, sameTelemetryKey_refl]

/-- A concrete valid telemetry message used by the C3 witness. -/
def sampleTelemetryMsg : TelemetryMsg :=
  { deviceId := "pi-01", sensorId := "cpu-temp", ts := "2024-01-01T00:00:00Z",
    seq := 7, type := "temperature", valueType := .number,
    value := .num (.finite ⟨725, 1⟩), unit := some "C", location := none }

/-- Witness for C3: inserting the mapped row of a concrete message twice
into an empty table. -/
theorem insertTelemetryRow_idempotent_witness :
    insertTelemetryRow (insertTelemetryRow [] (mapTelemetryToDb sampleTelemetryMsg))
        (mapTelemetryToDb sampleTelemetryMsg) =
      insertTelemetryRow [] (mapTelemetryToDb sampleTelemetryMsg) ∧
    (insertTelemetryRow (insertTelemetryRow [] (mapTelemetryToDb sampleTelemetryMsg))
        (mapTelemetryToDb sampleTelemetryMsg)).countP
      (fun a => sameTelemetryKey a (mapTelemetryToDb sampleTelemetryMsg)) = 1 :=
  insertTelemetryRow_idempotent [] (mapTelemetryToDb sampleTelemetryMsg)
    (fun r' => by simp [List.countP_nil])

/-! ## Time-series writer: batch loop -/

/-- The writer's invocation result (`TimescaleWriterResult`). -/
structure TimescaleWriterResult where
  inserted : Nat
  failed : Nat
deriving DecidableEq, Repr

/-- An exception escaping a writer invocation.  The writer's loop catches all
per-row errors, so the embedding never produces this. -/
inductive WriterError where
  | uncaught
deriving DecidableEq, Repr

/-- One raw item of an Event-Hub/queue batch as `parseBodyToObject` sees it:
an already-decoded value, a string body, or a `Buffer`/`Uint8Array` decoded
to UTF-8 text. -/
inductive WriterEvent where
  | raw (j : Js)
  | strBody (s : String)
  | bytes (s : String)

/-- An incoming invocation payload: `normalizeBatch` wraps a non-array into a
one-element batch. -/
inductive WriterBatch where
  | arr (xs : List WriterEvent)
  | single (e : WriterEvent)

/-- `normalizeBatch`. -/
def normalizeWriterBatch : WriterBatch → List WriterEvent
  | .arr xs => xs
  | .single e => [e]

/-- `parseBodyToObject`: strings (and decoded buffers) are `JSON.parse`d,
falling back to the raw string; decoded values pass through.  `jsonParse`
abstracts the `JSON.parse` builtin (`none` models a parse error). -/
def parseBodyToObject (jsonParse : String → Option Js) : WriterEvent → Js
  | .raw j => j
  | .strBody s => (jsonParse s).getD (.str s)
  | .bytes s => (jsonParse s).getD (.str s)

/-- The writer's per-item loop: a validation failure or a failing insert
(`insertFails` models a rejected database call, whose exception the loop
catches) increments `failed` and continues with the remaining items. -/
def writerLoop (jsonParse : String → Option Js) (insertFails : DbRow → Bool) :
    List WriterEvent → List DbRow → Nat → Nat → List DbRow × TimescaleWriterResult
  | [], table, ins, fl => (table, ⟨ins, fl⟩)
  | item :: rest, table, ins, fl =>
    match zodTelemetryParse (parseBodyToObject jsonParse item) with
    | none => writerLoop jsonParse insertFails rest table ins (fl + 1)
    | some msg =>
      let row := mapTelemetryToDb msg
      if insertFails row then writerLoop jsonParse insertFails rest table ins (fl + 1)
      else writerLoop jsonParse insertFails rest (insertTelemetryRow table row) (ins + 1) fl

/-- `runTimescaleWriter`: normalizes the batch, runs the loop, and returns
`{ inserted, failed }`.  `Except.error` would model an exception escaping
the invocation. -/
def runTimescaleWriter (jsonParse : String → Option Js) (insertFails : DbRow → Bool)
    (event : WriterBatch) (table : List DbRow) :
    Except WriterError (List DbRow × TimescaleWriterResult) :=
  .ok (writerLoop jsonParse insertFails (normalizeWriterBatch event) table 0 0)

/-- The failure count of a writer invocation outcome (0 if it raised). -/
def writerFailedCount : Except WriterError (List DbRow × TimescaleWriterResult) → Nat
  | .ok (_, r) => r.failed
  | .error _ => 0

/-- The inserted count of a writer invocation outcome (0 if it raised). -/
def writerInsertedCount : Except WriterError (List DbRow × TimescaleWriterResult) → Nat
  | .ok (_, r) => r.inserted
  | .error _ => 0

theorem writerLoop_counts (jsonParse : String → Option Js) (insertFails : DbRow → Bool)
    (items : List WriterEvent) (table : List DbRow) (ins fl : Nat) :
    (writerLoop jsonParse insertFails items table ins fl).2.inserted +
      (writerLoop jsonParse insertFails items table ins fl).2.failed =
    ins + fl + items.length := by
  induction items generalizing table ins fl with
  | nil => simp [writerLoop]
  | cons item rest ih =>
    unfold writerLoop
    cases zodTelemetryParse (parseBodyToObject jsonParse item) with
    | none =>
      rw [ih]
      simp
      omega
    | some msg =>
      dsimp only
      by_cases hf : insertFails (mapTelemetryToDb msg) = true
      · rw [if_pos hf, ih]
        simp
        omega
      · rw [if_neg hf, ih]
        simp
        omega

/-- Counterexample to **C4**: an invocation whose batch produces two failures
(one invalid item and one failing insert) and one successful insert returns
normally (`Except.isOk`) with `failed = 2 > 0` — it does not raise an error
at the end, so the queue service is not asked to retry. -/
theorem runTimescaleWriter_no_raise_counterexample :
    (runTimescaleWriter (fun _ => none)
        (fun r => decide (r.device_id = "fail-dev"))
        (.arr [
          .raw (.obj [("schemaVersion", .num (.finite ⟨1, 0⟩)), ("deviceId", .str "fail-dev"),
            ("sensorId", .str "t"), ("ts", .str "2024-01-01T00:00:00Z"),
            ("seq", .num (.finite ⟨0, 0⟩)), ("type", .str "temperature"),
            ("valueType", .str "number"), ("value", .num (.finite ⟨72, 0⟩))]),
          .raw .null,
          .raw (.obj [("schemaVersion", .num (.finite ⟨1, 0⟩)), ("deviceId", .str "pi-01"),
            ("sensorId", .str "t"), ("ts", .str "2024-01-01T00:00:00Z"),
            ("seq", .num (.finite ⟨1, 0⟩)), ("type", .str "temperature"),
            ("valueType", .str "number"), ("value", .num (.finite ⟨73, 0⟩))])])
        []).isOk = true ∧
    writerFailedCount (runTimescaleWriter (fun _ => none)
        (fun r => decide (r.device_id = "fail-dev"))
        (.arr [
          .raw (.obj [("schemaVersion", .num (.finite ⟨1, 0⟩)), ("deviceId", .str "fail-dev"),
            ("sensorId", .str "t"), ("ts", .str "2024-01-01T00:00:00Z"),
            ("seq", .num (.finite ⟨0, 0⟩)), ("type", .str "temperature"),
            ("valueType", .str "number"), ("value", .num (.finite ⟨72, 0⟩))]),
          .raw .null,
          .raw (.obj [("schemaVersion", .num (.finite ⟨1, 0⟩)), ("deviceId", .str "pi-01"),
            ("sensorId", .str "t"), ("ts", .str "2024-01-01T00:00:00Z"),
            ("seq", .num (.finite ⟨1, 0⟩)), ("type", .str "temperature"),
            ("valueType", .str "number"), ("value", .num (.finite ⟨73, 0⟩))])])
        []) = 2 ∧
    writerInsertedCount (runTimescaleWriter (fun _ => none)
        (fun r => decide (r.device_id = "fail-dev"))
        (.arr [
          .raw (.obj [("schemaVersion", .num (.finite ⟨1, 0⟩)), ("deviceId", .str "fail-dev"),
            ("sensorId", .str "t"), ("ts", .str "2024-01-01T00:00:00Z"),
            ("seq", .num (.finite ⟨0, 0⟩)), ("type", .str "temperature"),
            ("valueType", .str "number"), ("value", .num (.finite ⟨72, 0⟩))]),
          .raw .null,
          .raw (.obj [("schemaVersion", .num (.finite ⟨1, 0⟩)), ("deviceId", .str "pi-01"),
            ("sensorId", .str "t"), ("ts", .str "2024-01-01T00:00:00Z"),
            ("seq", .num (.finite ⟨1, 0⟩)), ("type", .str "temperature"),
            ("valueType", .str "number"), ("value", .num (.finite ⟨73, 0⟩))])])
        []) = 1 := by
  refine ⟨rfl, rfl, rfl⟩

/-- **C4 (amended)**.  For every batch processed by the Time-Series Writer,
an individual row's validation or insert failure does not stop processing of
the remaining rows — every item of the batch is counted exactly once as
inserted or failed — but the invocation never raises at the end: it returns
the `{ inserted, failed }` counts normally even when the failure count is
positive (so the queue service does not retry the message). -/
theorem runTimescaleWriter_isolates_failures_and_returns (jsonParse : String → Option Js)
    (insertFails : DbRow → Bool) (event : WriterBatch) (table : List DbRow) :
    ∃ out : List DbRow × TimescaleWriterResult,
      runTimescaleWriter jsonParse insertFails event table = .ok out ∧
      out.2.inserted + out.2.failed = (normalizeWriterBatch event).length := by
  refine ⟨writerLoop jsonParse insertFails (normalizeWriterBatch event) table 0 0, rfl, ?_⟩
  have h := writerLoop_counts jsonParse insertFails (normalizeWriterBatch event) table 0 0
  omega

/-! ## Value-column invariant of the writer -/

/-- Exactly one of the three value columns is non-null. -/
def exactlyOneValueColumn (r : DbRow) : Bool :=
  (r.value_number.isSome && r.value_boolean.isNone && r.value_text.isNone) ||
  (r.value_boolean.isSome && r.value_number.isNone && r.value_text.isNone) ||
  (r.value_text.isSome && r.value_number.isNone && r.value_boolean.isNone)

/-- A schema-valid message whose `valueType` is `"number"` but whose string
value does not convert to a number. -/
def sampleBadNumberMsg : TelemetryMsg :=
  { deviceId := "pi-01", sensorId := "cpu-temp", ts := "2024-01-01T00:00:00Z",
    seq := 0, type := "temperature", valueType := .number,
    value := .str "abc", unit := none, location := none }

/-- Counterexample to **C6** as stated: for the schema-valid message with
`valueType = "number"` and `value = "abc"`, the writer's row leaves the
numeric column null and stores the raw value in the text column — the
non-null column is not the one corresponding to `valueType`. -/
theorem mapTelemetryToDb_number_fallback_counterexample :
    (mapTelemetryToDb sampleBadNumberMsg).value_type = "number" ∧
    (mapTelemetryToDb sampleBadNumberMsg).value_number = none ∧
    (mapTelemetryToDb sampleBadNumberMsg).value_text = some "abc" := by
  refine ⟨rfl, ?_, ?_⟩ <;> decide

/-- **C6 (amended)**.  For every schema-valid telemetry message, the row the
Time-Series Writer produces has exactly one of the numeric, boolean and text
value columns non-null, and that column corresponds to the message's
`valueType` — except that when `valueType` is `"number"` and the value's
`Number(...)` conversion is `NaN` (e.g. a non-numeric string), the raw value
is stored in the text column instead and the numeric column is null. -/
theorem mapTelemetryToDb_exactly_one_value_column (msg : TelemetryMsg) :
    exactlyOneValueColumn (mapTelemetryToDb msg) = true ∧
    (mapTelemetryToDb msg).value_type = valueTypeStr msg.valueType ∧
    (msg.valueType = .boolean →
      (mapTelemetryToDb msg).value_boolean = some (telemetryValueToBoolean msg.value)) ∧
    ((msg.valueType = .enum ∨ msg.valueType = .string) →
      (mapTelemetryToDb msg).value_text = some (telemetryValueToString msg.value)) ∧
    (msg.valueType = .number →
      if telemetryValueToNumber msg.value = .nan then
        (mapTelemetryToDb msg).value_number = none ∧
        (mapTelemetryToDb msg).value_text = some (telemetryValueToString msg.value)
      else
        (mapTelemetryToDb msg).value_number = some (telemetryValueToNumber msg.value)) := by
  cases hvt : msg.valueType with
  | number =>
    cases hn : telemetryValueToNumber msg.value with
    | nan =>
      refine ⟨?_, ?_, ?_, ?_, ?_⟩ <;>
        simp [mapTelemetryToDb, exactlyOneValueColumn, valueTypeStr, hvt, hn]
    | finite d =>
      refine ⟨?_, ?_, ?_, ?_, ?_⟩ <;>
        simp [mapTelemetryToDb, exactlyOneValueColumn, valueTypeStr, hvt, hn]
    | posInf =>
      refine ⟨?_, ?_, ?_, ?_, ?_⟩ <;>
        simp [mapTelemetryToDb, exactlyOneValueColumn, valueTypeStr, hvt, hn]
    | negInf =>
      refine ⟨?_, ?_, ?_, ?_, ?_⟩ <;>
        simp [mapTelemetryToDb, exactlyOneValueColumn, valueTypeStr, hvt, hn]
  | boolean =>
    refine ⟨?_, ?_, ?_, ?_, ?_⟩ <;>
      simp [mapTelemetryToDb, exactlyOneValueColumn, valueTypeStr, hvt]
  | enum =>
    refine ⟨?_, ?_, ?_, ?_, ?_⟩ <;>
      simp [mapTelemetryToDb, exactlyOneValueColumn, valueTypeStr, hvt]
  | string =>
    refine ⟨?_, ?_, ?_, ?_, ?_⟩ <;>
      simp [mapTelemetryToDb, exactlyOneValueColumn, valueTypeStr, hvt]

/-! ## Telemetry validator (`parseTelemetryBatch`)

Embedding of `shared/eventhub/parseTelemetry.ts` together with the payload
normalisation helpers of `shared/iothub/event.ts` (`normalizeEventHubBatch`,
`extractEventHubBody`, `parseJsonSafe`).  The Zod `TelemetrySchema` of the
shared `telemetry.ts` module is not part of the sources; it is abstracted as
the `safeParse` argument (any validation function with Zod's
issues-on-failure interface).  The log-only `bodyPreview` of a bad item is
not modelled. -/

/-- A structured validation issue (`path` + `message`); numeric path entries
are carried as their rendered text. -/
structure TelemetryIssue where
  path : List String
  message : String
deriving DecidableEq, Repr

/-- The `body` property of a wrapper event object. -/
inductive EhBody where
  | bundef
  | bstr (s : String)
  | bval (j : Js)

/-- One raw Event Hub event: a string (also modelling `Buffer`/`Uint8Array`
decoded to UTF-8), an object with a `body` property, a plain object, or
`null`/a non-object primitive. -/
inductive EhEvent where
  | str (s : String)
  | objWithBody (body : EhBody)
  | objPlain (j : Js)
  | nullEvent

/-- An invocation payload; `normalizeEventHubBatch` wraps a non-array into a
one-element batch. -/
inductive EhBatch where
  | arr (xs : List EhEvent)
  | single (e : EhEvent)

/-- `normalizeEventHubBatch`. -/
def normalizeEhBatch : EhBatch → List EhEvent
  | .arr xs => xs
  | .single e => [e]

/-- The value `extractEventHubBody` returns: a string to be JSON-parsed or an
already-decoded value (`none` models `undefined`). -/
inductive EhBodyVal where
  | vstr (s : String)
  | vjs (j : Js)

/-- `extractEventHubBody`: strings and buffers pass as text; an object's
`body` property is taken when present (`undefined` body stays `undefined`);
a plain object passes as itself; `null` and non-objects give `undefined`. -/
def extractEventHubBody : EhEvent → Option EhBodyVal
  | .str s => some (.vstr s)
  | .objWithBody .bundef => none
  | .objWithBody (.bstr s) => some (.vstr s)
  | .objWithBody (.bval j) => some (.vjs j)
  | .objPlain j => some (.vjs j)
  | .nullEvent => none

/-- `parseJsonSafe`: `null`/`undefined` give `undefined`, strings are
`JSON.parse`d (`none` on a parse error), everything else passes through. -/
def parseJsonSafeModel (jsonParse : String → Option Js) : EhBodyVal → Option Js
  | .vstr s => jsonParse s
  | .vjs .null => none
  | .vjs j => some j

/-- The validator's per-item pipeline: missing body and invalid JSON yield
the fixed single-issue lists of the source; otherwise the abstracted
`TelemetrySchema.safeParse` decides. -/
def classifyEhEvent (jsonParse : String → Option Js)
    (safeParse : Js → Except (List TelemetryIssue) TelemetryMsg) (ev : EhEvent) :
    Except (List TelemetryIssue) TelemetryMsg :=
  match extractEventHubBody ev with
  | none => .error [⟨[], "Missing event body"⟩]
  | some body =>
    match parseJsonSafeModel jsonParse body with
    | none => .error [⟨[], "Body is not valid JSON"⟩]
    | some j => safeParse j

/-- A rejected batch item: the event and its issue list. -/
structure ParseTelemetryBad where
  event : EhEvent
  issues : List TelemetryIssue

/-- The validator's result: `{ ok, bad }`. -/
structure ParseTelemetryResult where
  ok : List TelemetryMsg
  bad : List ParseTelemetryBad

/-- The validator's loop over the normalized batch, preserving item order. -/
def parseTelemetryLoop (jsonParse : String → Option Js)
    (safeParse : Js → Except (List TelemetryIssue) TelemetryMsg) :
    List EhEvent → ParseTelemetryResult
  | [] => ⟨[], []⟩
  | ev :: rest =>
    let r := parseTelemetryLoop jsonParse safeParse rest
    match classifyEhEvent jsonParse safeParse ev with
    | .ok m => ⟨m :: r.ok, r.bad⟩
    | .error issues => ⟨r.ok, ⟨ev, issues⟩ :: r.bad⟩

/-- `parseTelemetryBatch`. -/
def parseTelemetryBatch (jsonParse : String → Option Js)
    (safeParse : Js → Except (List TelemetryIssue) TelemetryMsg)
    (events : EhBatch) : ParseTelemetryResult :=
  parseTelemetryLoop jsonParse safeParse (normalizeEhBatch events)

/-- **C9**.  For every input batch, the Validator returns `ok` holding
exactly the `K` schema-valid items and `bad` holding exactly the `J` invalid
items (`K + J` = batch size), each bad entry carrying a non-empty path +
message issue list (granted `safeParse` reports at least one issue, as Zod
does); the embedding is a total function, so no input raises an exception. -/
theorem parseTelemetryBatch_counts (jsonParse : String → Option Js)
    (safeParse : Js → Except (List TelemetryIssue) TelemetryMsg) (events : EhBatch)
    (hsp : ∀ j issues, safeParse j = .error issues → issues ≠ []) :
    (parseTelemetryBatch jsonParse safeParse events).ok.length =
      (normalizeEhBatch events).countP
        (fun ev => (classifyEhEvent jsonParse safeParse ev).isOk) ∧
    (parseTelemetryBatch jsonParse safeParse events).bad.length =
      (normalizeEhBatch events).countP
        (fun ev => !(classifyEhEvent jsonParse safeParse ev).isOk) ∧
    (parseTelemetryBatch jsonParse safeParse events).ok.length +
      (parseTelemetryBatch jsonParse safeParse events).bad.length =
      (normalizeEhBatch events).length ∧
    ∀ b ∈ (parseTelemetryBatch jsonParse safeParse events).bad, b.issues ≠ [] := by
  unfold parseTelemetryBatch
  induction normalizeEhBatch events with
  | nil => simp [parseTelemetryLoop]
  | cons ev rest ih =>
    obtain ⟨ih1, ih2, ih3, ih4⟩ := ih
    unfold parseTelemetryLoop
    cases hc : classifyEhEvent jsonParse safeParse ev with
    | ok m =>
      refine ⟨?_, ?_, ?_, ?_⟩
      · simp [List.countP_cons, hc, Except.isOk, Except.toBool, ih1]
      · simp [List.countP_cons, hc, Except.isOk, Except.toBool, ih2]
      · simp only [List.length_cons]
        omega
      · simpa using ih4
    | error issues =>
      have hne : issues ≠ [] := by
        unfold classifyEhEvent at hc
        split at hc
        · cases hc; simp
        · split at hc
          · cases hc; simp
          · exact hsp _ issues hc
      refine ⟨?_, ?_, ?_, ?_⟩
      · simp [List.countP_cons, hc, Except.isOk, Except.toBool, ih1]
      · simp [List.countP_cons, hc, Except.isOk, Except.toBool, ih2]
      · simp only [List.length_cons]
        omega
      · intro b hb
        rcases List.mem_cons.mp hb with rfl | hb
        · exact hne
        · exact ih4 b hb

/-- A concrete `safeParse` built from the writer's inline schema, used by
witnesses. -/
def zodSafeParse (j : Js) : Except (List TelemetryIssue) TelemetryMsg :=
  match zodTelemetryParse j with
  | some m => .ok m
  | none => .error [⟨[], "Invalid telemetry"⟩]

/-- A concrete schema-valid telemetry event payload. -/
def sampleGoodJs : Js :=
  .obj [("schemaVersion", .num (.finite ⟨1, 0⟩)), ("deviceId", .str "pi-01"),
    ("sensorId", .str "cpu-temp"), ("ts", .str "2024-01-01T00:00:00Z"),
    ("seq", .num (.finite ⟨0, 0⟩)), ("type", .str "temperature"),
    ("valueType", .str "number"), ("value", .num (.finite ⟨72, 0⟩))]

/-- Witness for C9: a batch with one valid item and one invalid (`null`)
item yields `|ok| = 1` and `|bad| = 1` with a non-empty issue list. -/
theorem parseTelemetryBatch_counts_witness :
    (parseTelemetryBatch (fun _ => none) zodSafeParse
        (.arr [.objPlain sampleGoodJs, .nullEvent])).ok.length =
      (normalizeEhBatch (.arr [.objPlain sampleGoodJs, .nullEvent])).countP
        (fun ev => (classifyEhEvent (fun _ => none) zodSafeParse ev).isOk) ∧
    (parseTelemetryBatch (fun _ => none) zodSafeParse
        (.arr [.objPlain sampleGoodJs, .nullEvent])).bad.length =
      (normalizeEhBatch (.arr [.objPlain sampleGoodJs, .nullEvent])).countP
        (fun ev => !(classifyEhEvent (fun _ => none) zodSafeParse ev).isOk) ∧
    (parseTelemetryBatch (fun _ => none) zodSafeParse
        (.arr [.objPlain sampleGoodJs, .nullEvent])).ok.length +
      (parseTelemetryBatch (fun _ => none) zodSafeParse
        (.arr [.objPlain sampleGoodJs, .nullEvent])).bad.length =
      (normalizeEhBatch (.arr [.objPlain sampleGoodJs, .nullEvent])).length ∧
    ∀ b ∈ (parseTelemetryBatch (fun _ => none) zodSafeParse
        (.arr [.objPlain sampleGoodJs, .nullEvent])).bad, b.issues ≠ [] :=
  parseTelemetryBatch_counts (fun _ => none) zodSafeParse
    (.arr [.objPlain sampleGoodJs, .nullEvent])
    (fun j issues h => by
      unfold zodSafeParse at h
      cases hz : zodTelemetryParse j with
      | some m => rw [hz] at h; cases h
      | none => rw [hz] at h; cases h; simp)

/-! ## Ingest fan-out dispatcher (`ingest.ts`)

The three Storage Queue clients are the constants `qDb`, `qAlerts`, `qBlob`;
a queue send's success is abstracted by the `sendOk` oracle.  `pMap` bounds
concurrency but, like `Promise.all`, rejects as soon as any enqueue rejects
and the handler rethrows — the invocation's outcome is `error` exactly when
some enqueue fails, which the sequential fold below reproduces. -/

/-- The three work queues of the fan-out. -/
inductive QueueTarget where
  | db
  | alerts
  | blob
deriving DecidableEq, Repr

/-- An enqueue failure escaping the invocation. -/
inductive IngestError where
  | enqueueFailed
deriving DecidableEq, Repr

/-- `enqueueToAllQueues`: `Promise.all` of the three sends — fails when any
of them fails. -/
def enqueueToAllQueues (sendOk : TelemetryMsg → QueueTarget → Bool)
    (m : TelemetryMsg) : Except IngestError Unit :=
  if sendOk m .db && sendOk m .alerts && sendOk m .blob then .ok ()
  else .error .enqueueFailed

/-- The `pMap` over all valid messages: fails when any dispatch fails. -/
def enqueueAllMessages (sendOk : TelemetryMsg → QueueTarget → Bool) :
    List TelemetryMsg → Except IngestError Unit
  | [] => .ok ()
  | m :: rest =>
    match enqueueToAllQueues sendOk m with
    | .ok _ => enqueueAllMessages sendOk rest
    | .error e => .error e

/-- The `ingest` handler: validates the batch (bad items are only logged),
returns successfully on an empty `ok` list, then enqueues every valid message
to all three queues, rethrowing any enqueue failure. -/
def ingest (jsonParse : String → Option Js)
    (safeParse : Js → Except (List TelemetryIssue) TelemetryMsg)
    (sendOk : TelemetryMsg → QueueTarget → Bool) (events : EhBatch) :
    Except IngestError Unit :=
  if (parseTelemetryBatch jsonParse safeParse events).ok.isEmpty then .ok ()
  else enqueueAllMessages sendOk (parseTelemetryBatch jsonParse safeParse events).ok

theorem enqueueAllMessages_error_iff (sendOk : TelemetryMsg → QueueTarget → Bool)
    (l : List TelemetryMsg) :
    enqueueAllMessages sendOk l = .error .enqueueFailed ↔
      ∃ m ∈ l, ∃ q : QueueTarget, sendOk m q = false := by
  induction l with
  | nil => simp [enqueueAllMessages]
  | cons m rest ih =>
    unfold enqueueAllMessages enqueueToAllQueues
    by_cases h : (sendOk m .db && sendOk m .alerts && sendOk m .blob) = true
    · rw [if_pos h]
      dsimp only
      rw [ih]
      constructor
      · rintro ⟨m', hm', q, hq⟩
        exact ⟨m', List.mem_cons_of_mem _ hm', q, hq⟩
      · rintro ⟨m', hm', q, hq⟩
        rcases List.mem_cons.mp hm' with rfl | hm'
        · exfalso
          simp only [Bool.and_eq_true] at h
          cases q
          · rw [h.1.1] at hq; cases hq
          · rw [h.1.2] at hq; cases hq
          · rw [h.2] at hq; cases hq
        · exact ⟨m', hm', q, hq⟩
    · rw [if_neg h]
      dsimp only
      constructor
      · intro _
        simp only [Bool.and_eq_true, not_and_or, Bool.not_eq_true] at h
        rcases h with (h | h) | h
        · exact ⟨m, List.mem_cons_self m rest, .db, h⟩
        · exact ⟨m, List.mem_cons_self m rest, .alerts, h⟩
        · exact ⟨m, List.mem_cons_self m rest, .blob, h⟩
      · intro _
        rfl

/-- **C7**.  For every ingest invocation, the invocation raises an error if
and only if one of the three queue enqueue operations fails for some valid
message of the batch — it never reports partial success, so the upstream
trigger redelivers the entire original batch. -/
theorem ingest_error_iff (jsonParse : String → Option Js)
    (safeParse : Js → Except (List TelemetryIssue) TelemetryMsg)
    (sendOk : TelemetryMsg → QueueTarget → Bool) (events : EhBatch) :
    ingest jsonParse safeParse sendOk events = .error .enqueueFailed ↔
      ∃ m ∈ (parseTelemetryBatch jsonParse safeParse events).ok,
        ∃ q : QueueTarget, sendOk m q = false := by
  unfold ingest
  by_cases h : (parseTelemetryBatch jsonParse safeParse events).ok.isEmpty = true
  · rw [if_pos h]
    rw [List.isEmpty_iff] at h
    rw [h]
    simp
  · rw [if_neg h]
    exact enqueueAllMessages_error_iff sendOk _

/-- Witness-style instance for C7 at a concrete batch and a `sendOk` oracle
that fails the alert-queue send of one message: the invocation errors. -/
theorem ingest_error_iff_witness :
    ingest (fun _ => none) zodSafeParse
        (fun m q => !(decide (m.deviceId = "pi-01") && decide (q = .alerts)))
        (.arr [.objPlain sampleGoodJs, .nullEvent]) = .error .enqueueFailed :=
  (ingest_error_iff (fun _ => none) zodSafeParse
      (fun m q => !(decide (m.deviceId = "pi-01") && decide (q = .alerts)))
      (.arr [.objPlain sampleGoodJs, .nullEvent])).mpr
    (by
      refine ⟨{ deviceId := "pi-01", sensorId := "cpu-temp", ts := "2024-01-01T00:00:00Z",
                seq := 0, type := "temperature", valueType := .number,
                value := .num (.finite ⟨72, 0⟩), unit := none, location := none },
              ?_, .alerts, by decide⟩
      decide)

/-! ## Archive writer (`blob-writer.ts`, append-blob variant)

The queue payload is normalised by `parseQueueMessages` (which casts, and
does not validate, the decoded JSON — the payloads modelled here are the
telemetry messages the cast asserts).  Messages are grouped by the partition
key `yyyy/mm/dd/hh/deviceId/sensorId` and each group's newline-delimited JSON
is appended to the partition's append blob (created on first use).  The UTC
date-path of a timestamp string and `JSON.stringify` of a message are
abstracted as the `dateParts` and `stringify` arguments.  The blob store is a
total map from blob name to current content (`""` for a blob not yet
created, matching `createIfNotExists` plus append).  Append I/O failures are
isolated per partition by the source and are not modelled; C8 concerns the
absence of any dedup key on the append path. -/

/-- A decoded queue payload for the archive writer: a single telemetry
message or an array of them. -/
inductive BlobPayload where
  | one (m : TelemetryMsg)
  | many (ms : List TelemetryMsg)

/-- A queue message for the archive writer: a JSON string (with its
`JSON.parse` result, `none` when unparsable), a `{ messageText }` wrapper,
an already-decoded payload, or `null`. -/
inductive BlobQueueItem where
  | strItem (parsed : Option BlobPayload)
  | wrapped (parsed : Option BlobPayload)
  | direct (p : BlobPayload)
  | nullItem

/-- `normalizeQueueMessage` / `parseQueueMessages`: always a list, empty for
`null` or unparsable payloads. -/
def parseQueueMessages : BlobQueueItem → List TelemetryMsg
  | .nullItem => []
  | .strItem none => []
  | .strItem (some (.one m)) => [m]
  | .strItem (some (.many ms)) => ms
  | .wrapped none => []
  | .wrapped (some (.one m)) => [m]
  | .wrapped (some (.many ms)) => ms
  | .direct (.one m) => [m]
  | .direct (.many ms) => ms

/-- Whether a character survives the blob-path sanitiser unchanged
(`[a-zA-Z0-9._\-]`). -/
def sanitizeAllowed (c : Char) : Bool :=
  let n := c.toNat
  (48 ≤ n && n ≤ 57) || (97 ≤ n && n ≤ 122) || (65 ≤ n && n ≤ 90) ||
    n = 46 || n = 95 || n = 45

/-- `replace(/\s+/g, "_")`: each whitespace run becomes one underscore. -/
def collapseWsAux : Bool → List Char → List Char
  | _, [] => []
  | prevWs, c :: rest =>
    if c.isWhitespace then
      if prevWs then collapseWsAux true rest
      else '_' :: collapseWsAux true rest
    else c :: collapseWsAux false rest

/-- `sanitizePathPart`: trim, collapse whitespace runs to `_`, replace
disallowed characters with `-`, truncate to 128. -/
def sanitizePathPart (v : String) : String :=
  ⟨((collapseWsAux false (trimChars v.data)).map
      (fun c => if sanitizeAllowed c then c else '-')).take 128⟩

/-- The partition key `yyyy/mm/dd/hh/deviceId/sensorId`; `dateParts`
abstracts `datePathParts` (the UTC hour path of the `ts` string). -/
def partitionKey (dateParts : String → String) (m : TelemetryMsg) : String :=
  dateParts m.ts ++ "/" ++ sanitizePathPart m.deviceId ++ "/" ++ sanitizePathPart m.sensorId

/-- Insertion-ordered grouping (`Map.get ?? []` + push + `Map.set`). -/
def addToPartition (parts : List (String × List TelemetryMsg)) (key : String)
    (m : TelemetryMsg) : List (String × List TelemetryMsg) :=
  match parts with
  | [] => [(key, [m])]
  | (k, ms) :: rest =>
    if k = key then (k, ms ++ [m]) :: rest
    else (k, ms) :: addToPartition rest key m

/-- `byPartition`: group the batch by partition key. -/
def buildPartitions (dateParts : String → String) (msgs : List TelemetryMsg) :
    List (String × List TelemetryMsg) :=
  msgs.foldl (fun acc m => addToPartition acc (partitionKey dateParts m) m) []

/-- Newline-delimited JSON of a partition's batch (with trailing newline). -/
def ndjsonBlock (stringify : TelemetryMsg → String) (batch : List TelemetryMsg) : String :=
  String.intercalate "\n" (batch.map stringify) ++ "\n"

/-- The blob store: blob name to current content (`""` = not yet created). -/
def BlobStore : Type := String → String

/-- `createIfNotExists` + `appendBlock`. -/
def storeAppend (st : BlobStore) (name blk : String) : BlobStore :=
  fun k => if k = name then st k ++ blk else st k

/-- The blob name of a partition key. -/
def blobNameOf (pfx key : String) : String := pfx ++ "/" ++ key ++ ".jsonl"

/-- `runBlobWriter`: parse the queue message, group by partition, and append
each group's NDJSON block to its partition blob. -/
def runBlobWriter (dateParts : String → String) (stringify : TelemetryMsg → String)
    (pfx : String) (st : BlobStore) (item : BlobQueueItem) : BlobStore :=
  (buildPartitions dateParts (parseQueueMessages item)).foldl
    (fun acc kb => storeAppend acc (blobNameOf pfx kb.1) (ndjsonBlock stringify kb.2)) st

/-- The content one invocation appends to the blob `name`. -/
def appendedBlocks (stringify : TelemetryMsg → String) (pfx name : String) :
    List (String × List TelemetryMsg) → String
  | [] => ""
  | kb :: rest =>
    (if blobNameOf pfx kb.1 = name then ndjsonBlock stringify kb.2 else "") ++
      appendedBlocks stringify pfx name rest

theorem foldl_storeAppend_apply (stringify : TelemetryMsg → String) (pfx : String)
    (parts : List (String × List TelemetryMsg)) (st : BlobStore) (name : String) :
    (parts.foldl
        (fun acc kb => storeAppend acc (blobNameOf pfx kb.1) (ndjsonBlock stringify kb.2))
        st) name =
      st name ++ appendedBlocks stringify pfx name parts := by
  induction parts generalizing st with
  | nil => simp [appendedBlocks, String.append_empty]
  | cons kb rest ih =>
    rw [List.foldl_cons, ih]
    rw [show appendedBlocks stringify pfx name (kb :: rest) =
      (if blobNameOf pfx kb.1 = name then ndjsonBlock stringify kb.2 else "") ++
        appendedBlocks stringify pfx name rest from rfl]
    unfold storeAppend
    by_cases h : blobNameOf pfx kb.1 = name
    · rw [if_pos h, if_pos h.symm, String.append_assoc]
    · rw [if_neg h, if_neg (fun hh => h hh.symm)]
      simp

/-- One invocation appends exactly `appendedBlocks` to every blob. -/
theorem runBlobWriter_apply (dateParts : String → String)
    (stringify : TelemetryMsg → String) (pfx : String) (st : BlobStore)
    (item : BlobQueueItem) (name : String) :
    runBlobWriter dateParts stringify pfx st item name =
      st name ++ appendedBlocks stringify pfx name
        (buildPartitions dateParts (parseQueueMessages item)) :=
  foldl_storeAppend_apply stringify pfx _ st name

theorem addToPartition_ne_nil (parts : List (String × List TelemetryMsg))
    (key : String) (m : TelemetryMsg) : addToPartition parts key m ≠ [] := by
  cases parts with
  | nil => simp [addToPartition]
  | cons kb rest =>
    unfold addToPartition
    rcases kb with ⟨k, ms⟩
    by_cases h : k = key
    · rw [if_pos h]; simp
    · rw [if_neg h]; simp

theorem foldl_addToPartition_ne_nil (dateParts : String → String)
    (msgs : List TelemetryMsg) (acc : List (String × List TelemetryMsg))
    (hacc : acc ≠ []) :
    msgs.foldl (fun a m => addToPartition a (partitionKey dateParts m) m) acc ≠ [] := by
  induction msgs generalizing acc with
  | nil => exact hacc
  | cons m rest ih =>
    rw [List.foldl_cons]
    exact ih _ (addToPartition_ne_nil acc _ m)

theorem buildPartitions_ne_nil (dateParts : String → String)
    (msgs : List TelemetryMsg) (h : msgs ≠ []) :
    buildPartitions dateParts msgs ≠ [] := by
  unfold buildPartitions
  cases msgs with
  | nil => exact absurd rfl h
  | cons m rest =>
    rw [List.foldl_cons]
    exact foldl_addToPartition_ne_nil dateParts rest _ (addToPartition_ne_nil [] _ m)

theorem ndjsonBlock_length_pos (stringify : TelemetryMsg → String)
    (batch : List TelemetryMsg) : 0 < (ndjsonBlock stringify batch).length := by
  unfold ndjsonBlock
  rw [String.length_append]
  have h2 : ("\n" : String).length = 1 := by decide
  omega

/-- **C8**.  The Archive Writer's append is not idempotent: no uniqueness or
dedup key guards the append, so processing the same queue message twice
appends the same serialized records to every per-partition append blob a
second time; in particular, for a queue message with at least one telemetry
message there is a partition blob whose content after the second run strictly
extends — and so differs from — its content after the first run. -/
theorem runBlobWriter_not_idempotent (dateParts : String → String)
    (stringify : TelemetryMsg → String) (pfx : String) (st : BlobStore)
    (item : BlobQueueItem) (hne : parseQueueMessages item ≠ []) :
    (∀ name : String,
      runBlobWriter dateParts stringify pfx
          (runBlobWriter dateParts stringify pfx st item) item name =
        st name ++
          appendedBlocks stringify pfx name
            (buildPartitions dateParts (parseQueueMessages item)) ++
          appendedBlocks stringify pfx name
            (buildPartitions dateParts (parseQueueMessages item))) ∧
    ∃ name : String,
      runBlobWriter dateParts stringify pfx
          (runBlobWriter dateParts stringify pfx st item) item name ≠
        runBlobWriter dateParts stringify pfx st item name := by
  constructor
  · intro name
    rw [runBlobWriter_apply, runBlobWriter_apply]
  · cases hp : buildPartitions dateParts (parseQueueMessages item) with
    | nil => exact absurd hp (buildPartitions_ne_nil dateParts _ hne)
    | cons kb rest =>
      refine ⟨blobNameOf pfx kb.1, ?_⟩
      simp only [runBlobWriter_apply]
      rw [hp]
      intro hcontra
      have hlen := congrArg String.length hcontra
      simp only [String.length_append] at hlen
      have hblock : appendedBlocks stringify pfx (blobNameOf pfx kb.1) (kb :: rest) =
          ndjsonBlock stringify kb.2 ++
            appendedBlocks stringify pfx (blobNameOf pfx kb.1) rest := by
        rw [show appendedBlocks stringify pfx (blobNameOf pfx kb.1) (kb :: rest) =
          (if blobNameOf pfx kb.1 = blobNameOf pfx kb.1 then ndjsonBlock stringify kb.2
           else "") ++ appendedBlocks stringify pfx (blobNameOf pfx kb.1) rest from rfl]
        rw [if_pos rfl]
      have hpos : 0 < (appendedBlocks stringify pfx (blobNameOf pfx kb.1) (kb :: rest)).length := by
        rw [hblock, String.length_append]
        have hb := ndjsonBlock_length_pos stringify kb.2
        omega
      omega

/-- Witness for C8: appending a one-message queue item twice to the empty
store doubles the partition blob's content. -/
theorem runBlobWriter_not_idempotent_witness :
    (∀ name : String,
      runBlobWriter (fun _ => "2024/01/01/00") (fun _ => "rec") "telemetry"
          (runBlobWriter (fun _ => "2024/01/01/00") (fun _ => "rec") "telemetry"
            (fun _ => "") (.direct (.one sampleTelemetryMsg)))
          (.direct (.one sampleTelemetryMsg)) name =
        (fun _ => "" : BlobStore) name ++
          appendedBlocks (fun _ => "rec") "telemetry" name
            (buildPartitions (fun _ => "2024/01/01/00")
              (parseQueueMessages (.direct (.one sampleTelemetryMsg)))) ++
          appendedBlocks (fun _ => "rec") "telemetry" name
            (buildPartitions (fun _ => "2024/01/01/00")
              (parseQueueMessages (.direct (.one sampleTelemetryMsg))))) ∧
    ∃ name : String,
      runBlobWriter (fun _ => "2024/01/01/00") (fun _ => "rec") "telemetry"
          (runBlobWriter (fun _ => "2024/01/01/00") (fun _ => "rec") "telemetry"
            (fun _ => "") (.direct (.one sampleTelemetryMsg)))
          (.direct (.one sampleTelemetryMsg)) name ≠
        runBlobWriter (fun _ => "2024/01/01/00") (fun _ => "rec") "telemetry"
          (fun _ => "") (.direct (.one sampleTelemetryMsg)) name :=
  runBlobWriter_not_idempotent (fun _ => "2024/01/01/00") (fun _ => "rec") "telemetry"
    (fun _ => "") (.direct (.one sampleTelemetryMsg)) (by simp [parseQueueMessages])
